import Mathlib

/-!
# LegalEase cap-table / share-ledger embedding

A shallow embedding of the LegalEase backend's entity and cap-table domain:
the relational rows of `shared/schema.ts` (drizzle tables), the storage layer
`DatabaseStorage` of `server/storage.ts`, the Express route handlers of
`server/routes.ts`, and the client-side cap-table computation of
`client/src/pages/CapTable.tsx`.

Modelling conventions:
- Row identifiers (`gen_random_uuid()` defaults) are modelled as `Nat` drawn
  from a per-database counter `Storage.nextId`; the spec treats ids as opaque
  unique tokens, so only freshness matters.
- User/actor ids are `String` (they come from the auth layer, e.g. the
  hardcoded `"test-user-123"`).
- Timestamps are `Nat` instants; `new Date()` is `Storage.now`.
- SQL `decimal` columns (`issuePrice`, `consideration`) are modelled as
  scaled integers; no claim inspects them.
- Each table is a list of rows, newest first (drizzle `insert` plus the
  `desc(...)` orderings used by the read paths).
- A mutating route handler is a function of its request parts; the trailing
  `auditOk : Bool` says whether the `storage.createAuditLog` insert resolves.
  When it rejects, the route's `catch` block answers 500 and every storage
  write already awaited stays applied (the handlers open no transaction).
- Zod `createInsertSchema(...).parse` checks only presence/types of the
  column fields and strips unknown keys; the typed body records encode
  exactly that, and no value-level refinement (positivity, uniqueness,
  exclusivity) exists in any of these schemas.
-/

namespace LegalEase

/-- Address payload accepted by `insertAddressSchema` (`addresses` columns
minus the generated id). -/
structure InsertAddress where
  line1 : String
  line2 : Option String := none
  city : String
  region : String
  country : String
  postal : String
  deriving DecidableEq, Repr

/-- Row of the `addresses` table. -/
structure Address where
  id : Nat
  line1 : String
  line2 : Option String
  city : String
  region : String
  country : String
  postal : String
  deriving DecidableEq, Repr

/-- Output of `insertOrgSchema` (orgs columns minus id/createdAt/updatedAt). -/
structure InsertOrg where
  name : String
  number : Option String := none
  jurisdiction : String
  formationAt : Option Nat := none
  registeredOfficeId : Option Nat := none
  recordsOfficeId : Option Nat := none
  mailingAddressId : Option Nat := none
  authRepName : Option String := none
  authRepCompany : Option String := none
  authRepAddressId : Option Nat := none
  authRepEmail : Option String := none
  authRepPhone : Option String := none
  createdById : String
  deriving DecidableEq, Repr

/-- Row of the `orgs` table. -/
structure Org where
  id : Nat
  name : String
  number : Option String
  jurisdiction : String
  formationAt : Option Nat
  registeredOfficeId : Option Nat
  recordsOfficeId : Option Nat
  mailingAddressId : Option Nat
  authRepName : Option String
  authRepCompany : Option String
  authRepAddressId : Option Nat
  authRepEmail : Option String
  authRepPhone : Option String
  createdById : String
  createdAt : Nat
  updatedAt : Nat
  deriving DecidableEq, Repr

/-- Output of `insertPersonSchema` (people columns minus id/createdAt). -/
structure InsertPerson where
  firstName : String
  lastName : String
  email : Option String := none
  dateOfBirth : Option Nat := none
  addressId : Option Nat := none
  kycId : Option String := none
  deriving DecidableEq, Repr

/-- Row of the `people` table. -/
structure Person where
  id : Nat
  firstName : String
  lastName : String
  email : Option String
  dateOfBirth : Option Nat
  addressId : Option Nat
  kycId : Option String
  createdAt : Nat
  deriving DecidableEq, Repr

/-- Output of `insertPersonOnOrgSchema` (person_on_orgs columns minus id).
Unknown request keys such as `shareQuantity`/`shareType`/`shareClass` sent by
the client forms are stripped by the zod object schema and so do not appear
here. -/
structure InsertPersonOnOrg where
  orgId : Nat
  personId : Nat
  role : String
  title : Option String := none
  startDate : Option Nat := none
  endAt : Option Nat := none
  deriving DecidableEq, Repr

/-- Row of the `person_on_orgs` table. -/
structure PersonOnOrg where
  id : Nat
  orgId : Nat
  personId : Nat
  role : String
  title : Option String
  startDate : Option Nat
  endAt : Option Nat
  deriving DecidableEq, Repr

/-- Output of `insertShareClassSchema` (share_classes columns minus id). -/
structure InsertShareClass where
  orgId : Nat
  name : String
  shortCode : String
  voting : Bool := true
  participating : Bool := true
  redemption : Bool := false
  specialRights : Option String := none
  deriving DecidableEq, Repr

/-- Row of the `share_classes` table. Note: the schema puts no UNIQUE
constraint on (`orgId`, `shortCode`). -/
structure ShareClass where
  id : Nat
  orgId : Nat
  name : String
  shortCode : String
  voting : Bool
  participating : Bool
  redemption : Bool
  specialRights : Option String
  deriving DecidableEq, Repr

/-- Output of `insertShareIssuanceSchema` (share_issuances columns minus id).
`quantity` is a plain SQL `integer`: the schema carries no positivity bound,
and no CHECK constraint ties `shareholderType` to which id column is null. -/
structure InsertShareIssuance where
  orgId : Nat
  shareholderType : String := "person"
  shareholderId : Option Nat := none
  entityShareholderId : Option Nat := none
  shareClassId : Nat
  quantity : Int
  certNumber : String
  issuePrice : Option Int := none
  issueDate : Nat
  deriving DecidableEq, Repr

/-- Row of the `share_issuances` table. -/
structure ShareIssuance where
  id : Nat
  orgId : Nat
  shareholderType : String
  shareholderId : Option Nat
  entityShareholderId : Option Nat
  shareClassId : Nat
  quantity : Int
  certNumber : String
  issuePrice : Option Int
  issueDate : Nat
  deriving DecidableEq, Repr

/-- Output of `insertShareTransferSchema` (share_transfers columns minus id). -/
structure InsertShareTransfer where
  orgId : Nat
  fromPersonId : Option Nat := none
  toPersonId : Nat
  shareClassId : Nat
  quantity : Int
  transferDate : Nat
  consideration : Option Int := none
  certFrom : Option String := none
  certTo : Option String := none
  deriving DecidableEq, Repr

/-- Row of the `share_transfers` table. -/
structure ShareTransfer where
  id : Nat
  orgId : Nat
  fromPersonId : Option Nat
  toPersonId : Nat
  shareClassId : Nat
  quantity : Int
  transferDate : Nat
  consideration : Option Int
  certFrom : Option String
  certTo : Option String
  deriving DecidableEq, Repr

/-- Output of `insertAuditLogSchema` (audit_logs columns minus id/createdAt).
The json `payload` is modelled as a flat key/value list rendering the
object literals built in `routes.ts`. -/
structure InsertAuditLog where
  orgId : Option Nat := none
  actorId : String
  action : String
  payload : List (String × String) := []
  deriving DecidableEq, Repr

/-- Row of the `audit_logs` table. -/
structure AuditLog where
  id : Nat
  orgId : Option Nat
  actorId : String
  action : String
  payload : List (String × String)
  createdAt : Nat
  deriving DecidableEq, Repr

/-- The relational datastore reached through `DatabaseStorage`: one list per
table (newest row first), the id counter, and the current instant. -/
structure Storage where
  addresses : List Address := []
  orgs : List Org := []
  people : List Person := []
  personOnOrgs : List PersonOnOrg := []
  shareClasses : List ShareClass := []
  shareIssuances : List ShareIssuance := []
  shareTransfers : List ShareTransfer := []
  auditLogs : List AuditLog := []
  nextId : Nat := 0
  now : Nat := 0
  deriving DecidableEq, Repr

/-- Storage method `DatabaseStorage.createAddress`: insert returning the created row. -/
def createAddress (s : Storage) (a : InsertAddress) : Address × Storage :=
  let row : Address :=
    { id := s.nextId, line1 := a.line1, line2 := a.line2, city := a.city,
      region := a.region, country := a.country, postal := a.postal }
  (row, { s with addresses := row :: s.addresses, nextId := s.nextId + 1 })

/-- Storage method `DatabaseStorage.getAddressById`. -/
def getAddressById (s : Storage) (i : Nat) : Option Address :=
  s.addresses.find? (fun a => a.id == i)

/-- Storage method `DatabaseStorage.createOrg`. -/
def createOrg (s : Storage) (o : InsertOrg) : Org × Storage :=
  let row : Org :=
    { id := s.nextId, name := o.name, number := o.number,
      jurisdiction := o.jurisdiction, formationAt := o.formationAt,
      registeredOfficeId := o.registeredOfficeId,
      recordsOfficeId := o.recordsOfficeId,
      mailingAddressId := o.mailingAddressId,
      authRepName := o.authRepName, authRepCompany := o.authRepCompany,
      authRepAddressId := o.authRepAddressId, authRepEmail := o.authRepEmail,
      authRepPhone := o.authRepPhone, createdById := o.createdById,
      createdAt := s.now, updatedAt := s.now }
  (row, { s with orgs := row :: s.orgs, nextId := s.nextId + 1 })

/-- Storage method `DatabaseStorage.getOrgById`. -/
def getOrgById (s : Storage) (i : Nat) : Option Org :=
  s.orgs.find? (fun o => o.id == i)

/-- The `Partial<InsertOrg>` patch as assembled by the PUT route: a key is present
(`some`) when the request supplied it. (Explicit-null patches are not used by
any route and are not modelled.) -/
structure OrgPatch where
  name : Option String := none
  number : Option String := none
  jurisdiction : Option String := none
  formationAt : Option Nat := none
  registeredOfficeId : Option Nat := none
  recordsOfficeId : Option Nat := none
  mailingAddressId : Option Nat := none
  authRepName : Option String := none
  authRepCompany : Option String := none
  authRepAddressId : Option Nat := none
  authRepEmail : Option String := none
  authRepPhone : Option String := none
  deriving DecidableEq, Repr

/-- A present patch key overwrites a nullable column; an absent key leaves
the stored value. -/
def patchOpt (p : Option α) (old : Option α) : Option α :=
  match p with
  | some v => some v
  | none => old

/-- Merge a patch into a row (drizzle `.set(updates)` semantics: only the
present keys are written). -/
def applyOrgPatch (o : Org) (p : OrgPatch) : Org :=
  { o with
    name := p.name.getD o.name,
    number := patchOpt p.number o.number,
    jurisdiction := p.jurisdiction.getD o.jurisdiction,
    formationAt := patchOpt p.formationAt o.formationAt,
    registeredOfficeId := patchOpt p.registeredOfficeId o.registeredOfficeId,
    recordsOfficeId := patchOpt p.recordsOfficeId o.recordsOfficeId,
    mailingAddressId := patchOpt p.mailingAddressId o.mailingAddressId,
    authRepName := patchOpt p.authRepName o.authRepName,
    authRepCompany := patchOpt p.authRepCompany o.authRepCompany,
    authRepAddressId := patchOpt p.authRepAddressId o.authRepAddressId,
    authRepEmail := patchOpt p.authRepEmail o.authRepEmail,
    authRepPhone := patchOpt p.authRepPhone o.authRepPhone }

/-- Storage method `DatabaseStorage.updateOrg`: `update ... set {updates, updatedAt: now}
where id = i returning`. Returns `none` when no row matched (the JS binding
is `undefined` then). -/
def updateOrg (s : Storage) (i : Nat) (p : OrgPatch) : Option Org × Storage :=
  let updated := s.orgs.map fun o =>
    if o.id == i then { applyOrgPatch o p with updatedAt := s.now } else o
  (updated.find? (fun o => o.id == i), { s with orgs := updated })

/-- Storage method `DatabaseStorage.createPerson`. -/
def createPerson (s : Storage) (p : InsertPerson) : Person × Storage :=
  let row : Person :=
    { id := s.nextId, firstName := p.firstName, lastName := p.lastName,
      email := p.email, dateOfBirth := p.dateOfBirth, addressId := p.addressId,
      kycId := p.kycId, createdAt := s.now }
  (row, { s with people := row :: s.people, nextId := s.nextId + 1 })

/-- Storage method `DatabaseStorage.getPeopleByOrg`: `select <people columns> from people
inner join person_on_orgs on people.id = person_on_orgs.person_id where
person_on_orgs.org_id = orgId`. One result row per matching
(person, relation) pair; since `people.id` is the primary key, that is one
person occurrence per relation row of the org. -/
def getPeopleByOrg (s : Storage) (orgId : Nat) : List Person :=
  (s.personOnOrgs.filter fun r => r.orgId == orgId).filterMap fun r =>
    s.people.find? fun p => p.id == r.personId

/-- Storage method `DatabaseStorage.createPersonOnOrg`. -/
def createPersonOnOrg (s : Storage) (r : InsertPersonOnOrg) :
    PersonOnOrg × Storage :=
  let row : PersonOnOrg :=
    { id := s.nextId, orgId := r.orgId, personId := r.personId,
      role := r.role, title := r.title, startDate := r.startDate,
      endAt := r.endAt }
  (row, { s with personOnOrgs := row :: s.personOnOrgs, nextId := s.nextId + 1 })

/-- Storage method `DatabaseStorage.getPersonOrgRelations`. -/
def getPersonOrgRelations (s : Storage) (orgId : Nat) : List PersonOnOrg :=
  s.personOnOrgs.filter fun r => r.orgId == orgId

/-- Storage method `DatabaseStorage.createShareClass`. -/
def createShareClass (s : Storage) (c : InsertShareClass) :
    ShareClass × Storage :=
  let row : ShareClass :=
    { id := s.nextId, orgId := c.orgId, name := c.name,
      shortCode := c.shortCode, voting := c.voting,
      participating := c.participating, redemption := c.redemption,
      specialRights := c.specialRights }
  (row, { s with shareClasses := row :: s.shareClasses, nextId := s.nextId + 1 })

/-- Storage method `DatabaseStorage.getShareClassesByOrg`. -/
def getShareClassesByOrg (s : Storage) (orgId : Nat) : List ShareClass :=
  s.shareClasses.filter fun c => c.orgId == orgId

/-- Storage method `DatabaseStorage.createShareIssuance`: a bare insert; no validation of
quantity, shareholder exclusivity, class ownership or self-reference. -/
def createShareIssuance (s : Storage) (i : InsertShareIssuance) :
    ShareIssuance × Storage :=
  let row : ShareIssuance :=
    { id := s.nextId, orgId := i.orgId, shareholderType := i.shareholderType,
      shareholderId := i.shareholderId,
      entityShareholderId := i.entityShareholderId,
      shareClassId := i.shareClassId, quantity := i.quantity,
      certNumber := i.certNumber, issuePrice := i.issuePrice,
      issueDate := i.issueDate }
  (row,
    { s with shareIssuances := row :: s.shareIssuances, nextId := s.nextId + 1 })

/-- Storage method `DatabaseStorage.getShareIssuancesByOrg` (ordering by issue date is
immaterial to every property below). -/
def getShareIssuancesByOrg (s : Storage) (orgId : Nat) : List ShareIssuance :=
  s.shareIssuances.filter fun i => i.orgId == orgId

/-- Storage method `DatabaseStorage.createShareTransfer`: a bare insert; in particular no
balance check against the transferor's holdings. -/
def createShareTransfer (s : Storage) (t : InsertShareTransfer) :
    ShareTransfer × Storage :=
  let row : ShareTransfer :=
    { id := s.nextId, orgId := t.orgId, fromPersonId := t.fromPersonId,
      toPersonId := t.toPersonId, shareClassId := t.shareClassId,
      quantity := t.quantity, transferDate := t.transferDate,
      consideration := t.consideration, certFrom := t.certFrom,
      certTo := t.certTo }
  (row,
    { s with shareTransfers := row :: s.shareTransfers, nextId := s.nextId + 1 })

/-- Storage method `DatabaseStorage.getShareTransfersByOrg`. -/
def getShareTransfersByOrg (s : Storage) (orgId : Nat) : List ShareTransfer :=
  s.shareTransfers.filter fun t => t.orgId == orgId

/-- Storage method `DatabaseStorage.createAuditLog`. -/
def createAuditLog (s : Storage) (l : InsertAuditLog) : AuditLog × Storage :=
  let row : AuditLog :=
    { id := s.nextId, orgId := l.orgId, actorId := l.actorId,
      action := l.action, payload := l.payload, createdAt := s.now }
  (row, { s with auditLogs := row :: s.auditLogs, nextId := s.nextId + 1 })

/-- Storage method `DatabaseStorage.getAuditLogsByOrg`. -/
def getAuditLogsByOrg (s : Storage) (orgId : Nat) : List AuditLog :=
  s.auditLogs.filter fun l => l.orgId == some orgId

/-! ## Route handlers (`server/routes.ts`)

Each handler returns the HTTP status, the JSON body on success, and the
datastore state after the request. -/

/-- Outcome of one request: status code, response entity (on success), and
the datastore afterwards. -/
structure RouteResult (α : Type) where
  status : Nat
  body : Option α
  state : Storage
  deriving DecidableEq, Repr

/-- Request body of `POST /api/orgs`: org scalar fields plus the embedded
`registeredOffice` / `recordsOffice` address payloads read by the handler. -/
structure CreateOrgBody where
  name : String
  number : Option String := none
  jurisdiction : String
  formationAt : Option Nat := none
  authRepName : Option String := none
  authRepCompany : Option String := none
  authRepEmail : Option String := none
  authRepPhone : Option String := none
  registeredOffice : Option InsertAddress := none
  recordsOffice : Option InsertAddress := none
  deriving DecidableEq, Repr

/-- Handler of `POST /api/orgs` (mounted WITHOUT `isAuthenticated`): ignores any
request identity (`reqUser`) and uses the hardcoded development user id
`"test-user-123"` for both `createdById` and the audit `actorId`. -/
def postOrgs (s : Storage) (reqUser : Option String) (b : CreateOrgBody)
    (auditOk : Bool) : RouteResult Org :=
  let userId := "test-user-123"
  -- insertOrgSchema.parse({ ...processedBody, createdById: userId })
  let orgData : InsertOrg :=
    { name := b.name, number := b.number, jurisdiction := b.jurisdiction,
      formationAt := b.formationAt, authRepName := b.authRepName,
      authRepCompany := b.authRepCompany, authRepEmail := b.authRepEmail,
      authRepPhone := b.authRepPhone, createdById := userId }
  let (orgData, s) :=
    match b.registeredOffice with
    | some a =>
      let (row, s1) := createAddress s a
      ({ orgData with registeredOfficeId := some row.id }, s1)
    | none => (orgData, s)
  let (orgData, s) :=
    match b.recordsOffice with
    | some a =>
      let (row, s1) := createAddress s a
      ({ orgData with recordsOfficeId := some row.id }, s1)
    | none => (orgData, s)
  let (org, s) := createOrg s orgData
  if auditOk then
    let (_, s) := createAuditLog s
      { orgId := some org.id, actorId := userId, action := "CREATE_ORG",
        payload := [("orgId", toString org.id), ("name", org.name)] }
    { status := 201, body := some org, state := s }
  else
    -- the audit insert rejected inside the try block: catch answers 500,
    -- the already-awaited createOrg/createAddress writes stay applied
    { status := 500, body := none, state := s }

/-- Request body of `PUT /api/orgs/:id`. -/
structure UpdateOrgBody where
  name : Option String := none
  number : Option String := none
  jurisdiction : Option String := none
  formationAt : Option Nat := none
  authRepName : Option String := none
  authRepCompany : Option String := none
  authRepEmail : Option String := none
  authRepPhone : Option String := none
  registeredOffice : Option InsertAddress := none
  mailingAddress : Option InsertAddress := none
  authRepAddress : Option InsertAddress := none
  deriving DecidableEq, Repr

/-- Handler of `PUT /api/orgs/:id` (mounted WITHOUT `isAuthenticated`; hardcoded
`"test-user-123"` actor). An address sub-object with a truthy `line1`
becomes a brand-new Address row whose id is patched onto the org; the
sub-objects themselves are deleted from the update payload before
`insertOrgSchema.partial().parse`. -/
def putOrg (s : Storage) (reqUser : Option String) (id : Nat)
    (b : UpdateOrgBody) (auditOk : Bool) : RouteResult Org :=
  let userId := "test-user-123"
  let patch : OrgPatch :=
    { name := b.name, number := b.number, jurisdiction := b.jurisdiction,
      formationAt := b.formationAt, authRepName := b.authRepName,
      authRepCompany := b.authRepCompany, authRepEmail := b.authRepEmail,
      authRepPhone := b.authRepPhone }
  let (patch, s) :=
    match b.registeredOffice with
    | some a =>
      if a.line1 ≠ "" then
        let (row, s1) := createAddress s a
        ({ patch with registeredOfficeId := some row.id }, s1)
      else (patch, s)
    | none => (patch, s)
  let (patch, s) :=
    match b.mailingAddress with
    | some a =>
      if a.line1 ≠ "" then
        let (row, s1) := createAddress s a
        ({ patch with mailingAddressId := some row.id }, s1)
      else (patch, s)
    | none => (patch, s)
  let (patch, s) :=
    match b.authRepAddress with
    | some a =>
      if a.line1 ≠ "" then
        let (row, s1) := createAddress s a
        ({ patch with authRepAddressId := some row.id }, s1)
      else (patch, s)
    | none => (patch, s)
  let upd := updateOrg s id patch
  let s := upd.2
  match upd.1 with
  | some org =>
    if auditOk then
      let (_, s) := createAuditLog s
        { orgId := some org.id, actorId := userId, action := "UPDATE_ORG",
          payload := [("orgId", toString org.id)] }
      { status := 200, body := some org, state := s }
    else
      { status := 500, body := none, state := s }
  | none =>
    -- `org.id` on an undefined row throws; catch answers 500
    { status := 500, body := none, state := s }

/-- One element of the `roles` array of `POST /api/orgs/:orgId/people`.
Extra client keys (`shareQuantity`, `shareType`, `shareClass`) are stripped
by `insertPersonOnOrgSchema.parse` and never reach the table. -/
structure RoleBody where
  role : String
  title : Option String := none
  startAt : Option Nat := none
  deriving DecidableEq, Repr

/-- The `person` part of `POST /api/orgs/:orgId/people`. -/
structure PersonBody where
  firstName : String
  lastName : String
  email : Option String := none
  dateOfBirth : Option Nat := none
  kycId : Option String := none
  address : Option InsertAddress := none
  deriving DecidableEq, Repr

/-- Request body of `POST /api/orgs/:orgId/people`. -/
structure AddPersonBody where
  person : PersonBody
  roles : List RoleBody := []
  deriving DecidableEq, Repr

/-- Handler of `POST /api/orgs/:orgId/people` (behind `isAuthenticated`; `userId` is
`req.user.claims.sub`). Creates the optional address, the person, then one
`personOnOrgs` row per element of `roles` (a plain sequential loop, no
transaction), then one `ADD_PERSON` audit entry. -/
def postPeople (s : Storage) (userId : String) (orgId : Nat)
    (b : AddPersonBody) (auditOk : Bool) : RouteResult Person :=
  let (personData, s) :=
    match b.person.address with
    | some a =>
      let (row, s1) := createAddress s a
      (({ firstName := b.person.firstName, lastName := b.person.lastName,
          email := b.person.email, dateOfBirth := b.person.dateOfBirth,
          kycId := b.person.kycId, addressId := some row.id } :
          InsertPerson), s1)
    | none =>
      (({ firstName := b.person.firstName, lastName := b.person.lastName,
          email := b.person.email, dateOfBirth := b.person.dateOfBirth,
          kycId := b.person.kycId, addressId := none } : InsertPerson), s)
  let (person, s) := createPerson s personData
  let (createdRoles, s) :=
    b.roles.foldl
      (fun (acc : List PersonOnOrg × Storage) role =>
        let (done, st) := acc
        -- insertPersonOnOrgSchema.parse({ ...role, startAt: role.startAt ?
        -- new Date(role.startAt) : new Date(), orgId, personId })
        let relationData : InsertPersonOnOrg :=
          { orgId := orgId, personId := person.id, role := role.role,
            title := role.title, startDate := some (role.startAt.getD st.now),
            endAt := none }
        let (rel, st) := createPersonOnOrg st relationData
        (done ++ [rel], st))
      ([], s)
  if auditOk then
    let (_, s) := createAuditLog s
      { orgId := some orgId, actorId := userId, action := "ADD_PERSON",
        payload :=
          [("personId", toString person.id),
           ("name", person.firstName ++ " " ++ person.lastName),
           ("roles", String.intercalate "," (createdRoles.map (·.role)))] }
    { status := 201, body := some person, state := s }
  else
    { status := 500, body := none, state := s }

/-- A person decorated with role rows, as returned by
`GET /api/orgs/:orgId/people`. -/
structure PersonWithRoles where
  person : Person
  roles : List PersonOnOrg
  deriving DecidableEq, Repr

/-- Handler of `GET /api/orgs/:orgId/people`: fetches the (join-duplicated) people and
all of the org's relations, then decorates every person occurrence with the
relations whose `personId` matches. -/
def getPeopleWithRoles (s : Storage) (orgId : Nat) : List PersonWithRoles :=
  let ppl := getPeopleByOrg s orgId
  let relations := getPersonOrgRelations s orgId
  ppl.map fun person =>
    { person := person,
      roles := relations.filter fun r => r.personId == person.id }

/-- Request body of `POST /api/orgs/:orgId/share-classes`. -/
structure ShareClassBody where
  name : String
  shortCode : String
  voting : Bool := true
  participating : Bool := true
  redemption : Bool := false
  specialRights : Option String := none
  deriving DecidableEq, Repr

/-- Handler of `POST /api/orgs/:orgId/share-classes` (behind `isAuthenticated`):
parses `{ ...body, orgId }` and inserts; no shortCode-uniqueness lookup
of any kind, then one `CREATE_SHARE_CLASS` audit entry. -/
def postShareClasses (s : Storage) (userId : String) (orgId : Nat)
    (b : ShareClassBody) (auditOk : Bool) : RouteResult ShareClass :=
  let shareClassData : InsertShareClass :=
    { orgId := orgId, name := b.name, shortCode := b.shortCode,
      voting := b.voting, participating := b.participating,
      redemption := b.redemption, specialRights := b.specialRights }
  let (shareClass, s) := createShareClass s shareClassData
  if auditOk then
    let (_, s) := createAuditLog s
      { orgId := some orgId, actorId := userId,
        action := "CREATE_SHARE_CLASS",
        payload := [("shareClassId", toString shareClass.id),
                    ("name", shareClass.name)] }
    { status := 201, body := some shareClass, state := s }
  else
    { status := 500, body := none, state := s }

/-- Request body of `POST /api/orgs/:orgId/issuances`. -/
structure IssuanceBody where
  shareholderType : String := "person"
  shareholderId : Option Nat := none
  entityShareholderId : Option Nat := none
  shareClassId : Nat
  quantity : Int
  certNumber : String
  issuePrice : Option Int := none
  issueDate : Nat
  deriving DecidableEq, Repr

/-- Handler of `POST /api/orgs/:orgId/issuances` (behind `isAuthenticated`): parses
`{ ...body, orgId }` and inserts. There is no check at all on quantity
positivity, shareholder-type exclusivity, class ownership, or
self-reference; then one `ISSUE_SHARES` audit entry. -/
def postIssuances (s : Storage) (userId : String) (orgId : Nat)
    (b : IssuanceBody) (auditOk : Bool) : RouteResult ShareIssuance :=
  let issuanceData : InsertShareIssuance :=
    { orgId := orgId, shareholderType := b.shareholderType,
      shareholderId := b.shareholderId,
      entityShareholderId := b.entityShareholderId,
      shareClassId := b.shareClassId, quantity := b.quantity,
      certNumber := b.certNumber, issuePrice := b.issuePrice,
      issueDate := b.issueDate }
  let (issuance, s) := createShareIssuance s issuanceData
  if auditOk then
    let (_, s) := createAuditLog s
      { orgId := some orgId, actorId := userId, action := "ISSUE_SHARES",
        payload := [("issuanceId", toString issuance.id),
                    ("quantity", toString issuance.quantity),
                    ("certNumber", issuance.certNumber)] }
    { status := 201, body := some issuance, state := s }
  else
    { status := 500, body := none, state := s }

/-- Request body of `POST /api/orgs/:orgId/transfers`. -/
structure TransferBody where
  fromPersonId : Option Nat := none
  toPersonId : Nat
  shareClassId : Nat
  quantity : Int
  transferDate : Nat
  consideration : Option Int := none
  certFrom : Option String := none
  certTo : Option String := none
  deriving DecidableEq, Repr

/-- Handler of `POST /api/orgs/:orgId/transfers` (behind `isAuthenticated`): parses
`{ ...body, orgId }` and inserts the transfer row directly — the handler
never reads issuances or prior transfers, so no balance is computed and no
quantity-vs-holdings comparison happens; then one `TRANSFER_SHARES` audit
entry. -/
def postTransfers (s : Storage) (userId : String) (orgId : Nat)
    (b : TransferBody) (auditOk : Bool) : RouteResult ShareTransfer :=
  let transferData : InsertShareTransfer :=
    { orgId := orgId, fromPersonId := b.fromPersonId,
      toPersonId := b.toPersonId, shareClassId := b.shareClassId,
      quantity := b.quantity, transferDate := b.transferDate,
      consideration := b.consideration, certFrom := b.certFrom,
      certTo := b.certTo }
  let (transfer, s) := createShareTransfer s transferData
  if auditOk then
    let (_, s) := createAuditLog s
      { orgId := some orgId, actorId := userId, action := "TRANSFER_SHARES",
        payload := [("transferId", toString transfer.id),
                    ("quantity", toString transfer.quantity)] }
    { status := 201, body := some transfer, state := s }
  else
    { status := 500, body := none, state := s }

/-- Request body of `POST /api/orgs/:orgId/corporate-shareholders`. -/
structure CorpShareholderBody where
  entityShareholderId : Nat
  shareClassId : Nat
  quantity : Int
  certNumber : String
  issuePrice : Option Int := none
  issueDate : Nat
  deriving DecidableEq, Repr

/-- Handler of `POST /api/orgs/:orgId/corporate-shareholders` (behind
`isAuthenticated`): the ONLY route with a self-reference guard — when
`entityShareholderId === orgId` it answers 400 before any write, so neither
an issuance row nor an audit entry is produced; otherwise it inserts the
issuance with `shareholderType: "entity"` and audits
`ADD_CORPORATE_SHAREHOLDER`. -/
def postCorporateShareholders (s : Storage) (userId : String) (orgId : Nat)
    (b : CorpShareholderBody) (auditOk : Bool) : RouteResult ShareIssuance :=
  if b.entityShareholderId == orgId then
    { status := 400, body := none, state := s }
  else
    let (shareIssuance, s) := createShareIssuance s
      { orgId := orgId, shareholderType := "entity", shareholderId := none,
        entityShareholderId := some b.entityShareholderId,
        shareClassId := b.shareClassId, quantity := b.quantity,
        certNumber := b.certNumber, issuePrice := b.issuePrice,
        issueDate := b.issueDate }
    if auditOk then
      let (_, s) := createAuditLog s
        { orgId := some orgId, actorId := userId,
          action := "ADD_CORPORATE_SHAREHOLDER",
          payload := [("shareIssuanceId", toString shareIssuance.id),
                      ("entityShareholderId", toString b.entityShareholderId),
                      ("quantity", toString b.quantity),
                      ("shareClassId", toString b.shareClassId)] }
      { status := 201, body := some shareIssuance, state := s }
    else
      { status := 500, body := none, state := s }

/-- One `app.<method>(path, ...)` registration in `registerRoutes`, with
whether the `isAuthenticated` middleware is in its handler chain. -/
structure RouteEntry where
  method : String
  path : String
  usesIsAuthenticated : Bool
  deriving DecidableEq, Repr

/-- The full route table of `server/routes.ts`, in registration order. -/
def registeredRoutes : List RouteEntry :=
  [ { method := "GET", path := "/api/auth/user", usesIsAuthenticated := true },
    { method := "GET", path := "/api/orgs", usesIsAuthenticated := false },
    { method := "POST", path := "/api/orgs", usesIsAuthenticated := false },
    { method := "GET", path := "/api/orgs/:id", usesIsAuthenticated := false },
    { method := "PUT", path := "/api/orgs/:id", usesIsAuthenticated := false },
    { method := "GET", path := "/api/orgs/:orgId/people",
      usesIsAuthenticated := true },
    { method := "POST", path := "/api/orgs/:orgId/people",
      usesIsAuthenticated := true },
    { method := "GET", path := "/api/orgs/:orgId/share-classes",
      usesIsAuthenticated := true },
    { method := "POST", path := "/api/orgs/:orgId/share-classes",
      usesIsAuthenticated := true },
    { method := "GET", path := "/api/orgs/:orgId/issuances",
      usesIsAuthenticated := true },
    { method := "POST", path := "/api/orgs/:orgId/issuances",
      usesIsAuthenticated := true },
    { method := "GET", path := "/api/orgs/:orgId/transfers",
      usesIsAuthenticated := true },
    { method := "POST", path := "/api/orgs/:orgId/transfers",
      usesIsAuthenticated := true },
    { method := "GET", path := "/api/templates", usesIsAuthenticated := true },
    { method := "POST", path := "/api/templates", usesIsAuthenticated := true },
    { method := "POST", path := "/api/generate", usesIsAuthenticated := true },
    { method := "POST", path := "/api/minute-book",
      usesIsAuthenticated := true },
    { method := "GET", path := "/api/orgs/:orgId/documents",
      usesIsAuthenticated := true },
    { method := "GET", path := "/api/orgs/:orgId/audit-logs",
      usesIsAuthenticated := true },
    { method := "GET", path := "/api/orgs/:orgId/registers",
      usesIsAuthenticated := true },
    { method := "POST", path := "/api/orgs/:orgId/corporate-shareholders",
      usesIsAuthenticated := true },
    { method := "GET", path := "/api/orgs/:orgId/corporate-shareholders",
      usesIsAuthenticated := true },
    { method := "GET", path := "/api/orgs/:orgId/templates",
      usesIsAuthenticated := true },
    { method := "POST", path := "/api/orgs/:orgId/templates",
      usesIsAuthenticated := true },
    { method := "DELETE", path := "/api/orgs/:orgId/templates/:templateId",
      usesIsAuthenticated := true },
    { method := "GET", path := "/api/documents/:orgId?",
      usesIsAuthenticated := true },
    { method := "POST", path := "/api/orgs/:orgId/documents",
      usesIsAuthenticated := true },
    { method := "POST", path := "/api/orgs/:orgId/documents/bundle",
      usesIsAuthenticated := true } ]

/-- Whether a registered route's handler chain contains `isAuthenticated`. -/
def routeUsesAuth (method path : String) : Option Bool :=
  (registeredRoutes.find? fun r =>
    r.method == method && r.path == path).map (·.usesIsAuthenticated)

/-! ## Client cap-table page (`client/src/pages/CapTable.tsx`)

The page renders `useQuery` data from `GET /api/orgs/:id/people`. Its role
objects are typed `PersonOnOrg` but the code dereferences `shareQuantity`,
`shareType`, `shareClass`, `shareIssueDate` — keys that do not exist on
`person_on_orgs` rows (and are stripped from create requests by
`insertPersonOnOrgSchema`), so at runtime they are `undefined`. -/

/-- A role object as the cap-table page sees it after JSON round-trip:
the persisted columns plus the four absent (hence `none`) display keys. -/
structure ClientRole where
  role : String
  title : Option String
  shareQuantity : Option Int
  shareType : Option String
  shareClass : Option String
  shareIssueDate : Option Nat
  deriving DecidableEq, Repr

/-- JSON round-trip of a `person_on_orgs` row into the page's role object:
the serialized row carries no `shareQuantity`/`shareType`/`shareClass`/
`shareIssueDate` keys, so those reads give `undefined`. -/
def toClientRole (r : PersonOnOrg) : ClientRole :=
  { role := r.role, title := r.title, shareQuantity := none,
    shareType := none, shareClass := none, shareIssueDate := none }

/-- One element of the page's `people` query data. -/
structure ClientPerson where
  person : Person
  roles : List ClientRole
  deriving DecidableEq, Repr

/-- The page's `people` data: the GET people response seen client-side. -/
def clientPeople (s : Storage) (orgId : Nat) : List ClientPerson :=
  (getPeopleWithRoles s orgId).map fun pw =>
    { person := pw.person, roles := pw.roles.map toClientRole }

/-- The page computation `const shareholders = people.filter(person =>
person.roles.some(role => role.role === 'Shareholder'))`. -/
def shareholders (ppl : List ClientPerson) : List ClientPerson :=
  ppl.filter fun p => p.roles.any fun r => r.role == "Shareholder"

/-- The page computation `const totalShares = shareholders.reduce((total, person) => total +
person.roles.filter(Shareholder).reduce((sum, role) => sum +
(role.shareQuantity || 0), 0), 0)`. -/
def totalShares (shs : List ClientPerson) : Int :=
  shs.foldl
    (fun total person =>
      total +
        (person.roles.filter fun r => r.role == "Shareholder").foldl
          (fun sum role => sum + role.shareQuantity.getD 0) 0)
    0

/-- Exact-rational rendering of JS `Number(num/den*...).toFixed(2)`
(round half up on the non-negative values that occur here). -/
def toFixed2 (num den : Int) : String :=
  let scaled : Int := (num * 200 + den) / (2 * den)
  let ip := scaled / 100
  let fp := (scaled % 100).natAbs
  toString ip ++ "." ++ (if fp < 10 then "0" else "") ++ toString fp

/-- The page helper `formatPercentage(shares)`: `"0%"` when `totalShares === 0`, otherwise
`((shares / totalShares) * 100).toFixed(2) + "%"`. The page's `totalShares`
closure variable is the first argument. -/
def formatPercentage (total shares : Int) : String :=
  if total == 0 then "0%" else toFixed2 (shares * 100) total ++ "%"

/-! ## Net holdings (spec formula) -/

/-- Modelled from the spec: the net holdings of holder `holderId` in share
class `classId` of org `orgId`, computed as `sum(issuances to the holder)
− sum(transfers out) + sum(transfers in)` for that (org, class, holder)
triple. No function in the source computes this for validation — the
transfer route performs no balance check — so this definition follows the
spec's words and is used to state the conservation property the code is
measured against. -/
def netHoldings (s : Storage) (orgId classId holderId : Nat) : Int :=
  ((s.shareIssuances.filter fun i =>
      i.orgId == orgId && i.shareClassId == classId &&
      i.shareholderId == some holderId).foldl
    (fun a i => a + i.quantity) 0)
  - ((s.shareTransfers.filter fun t =>
      t.orgId == orgId && t.shareClassId == classId &&
      t.fromPersonId == some holderId).foldl
    (fun a t => a + t.quantity) 0)
  + ((s.shareTransfers.filter fun t =>
      t.orgId == orgId && t.shareClassId == classId &&
      t.toPersonId == holderId).foldl
    (fun a t => a + t.quantity) 0)

/-! ## Concrete request chains

Each state below is reached from the empty datastore exclusively through
the route handlers, so every property shown on them is about reachable
behavior of the API. Generated ids are the successive counter values. -/

/-- The empty datastore. -/
def emptyDb : Storage := {}

/-- Body of `POST /api/orgs` for the demo org. -/
def acmeBody : CreateOrgBody := { name := "Acme Inc", jurisdiction := "DE" }

/-- Create the demo org (org id 0, audit id 1). -/
def acmeRun : RouteResult Org := postOrgs emptyDb none acmeBody true

/-- Datastore containing just the demo org. -/
def acmeDb : Storage := acmeRun.state

/-- Add shareholder person Pat (person 2, role 3, audit 4). -/
def patBody : AddPersonBody :=
  { person := { firstName := "Pat", lastName := "Primary" },
    roles := [{ role := "Shareholder" }] }

/-- State with org and Pat. -/
def withPat : Storage := (postPeople acmeDb "lawyer-1" 0 patBody true).state

/-- Add shareholder person Quinn (person 5, role 6, audit 7). -/
def quinnBody : AddPersonBody :=
  { person := { firstName := "Quinn", lastName := "Second" },
    roles := [{ role := "Shareholder" }] }

/-- State with org, Pat and Quinn. -/
def withPatQuinn : Storage :=
  (postPeople withPat "lawyer-1" 0 quinnBody true).state

/-- Body of `POST .../share-classes` for Class A. -/
def classABody : ShareClassBody := { name := "Class A Common", shortCode := "A" }

/-- State with org, Pat, Quinn and share class A (class 8, audit 9). -/
def withClassA : Storage :=
  (postShareClasses withPatQuinn "lawyer-1" 0 classABody true).state

/-- Issue 1000 Class-A shares to Pat (issuance 10, audit 11). -/
def issue1000Body : IssuanceBody :=
  { shareholderId := some 2, shareClassId := 8, quantity := 1000,
    certNumber := "A-1", issueDate := 10 }

/-- State after the 1000-share issuance to Pat. -/
def withIssuance : Storage :=
  (postIssuances withClassA "lawyer-1" 0 issue1000Body true).state

/-- Transfer 400 Class-A shares Pat → Quinn (transfer 12, audit 13). -/
def transfer400Body : TransferBody :=
  { fromPersonId := some 2, toPersonId := 5, shareClassId := 8,
    quantity := 400, transferDate := 20 }

/-- State after the 400-share transfer: Pat's net is 600. -/
def withTransfer : Storage :=
  (postTransfers withIssuance "lawyer-1" 0 transfer400Body true).state

/-- A further transfer of 700 from Pat, who now holds only 600. -/
def overTransferBody : TransferBody :=
  { fromPersonId := some 2, toPersonId := 5, shareClassId := 8,
    quantity := 700, transferDate := 30 }

/-- Outcome of posting the 700-share over-transfer. -/
def overTransferRun : RouteResult ShareTransfer :=
  postTransfers withTransfer "lawyer-1" 0 overTransferBody true

/-- Scenario-2 chain: org, sole person Pat, Class A (class 5, audit 6),
then issue 1000 Class-A shares to Pat (issuance 7, audit 8). -/
def soleHolderDb : Storage :=
  (postIssuances (postShareClasses withPat "lawyer-1" 0 classABody true).state
    "lawyer-1" 0
    { shareholderId := some 2, shareClassId := 5, quantity := 1000,
      certNumber := "A-1", issueDate := 10 } true).state

/-- Scenario-5 body: one person with the two roles Director and
Shareholder in a single call. -/
def danaBody : AddPersonBody :=
  { person := { firstName := "Dana", lastName := "Dual" },
    roles := [{ role := "Director" }, { role := "Shareholder" }] }

/-- State after adding Dana with two roles to the demo org
(person 2, roles 3 and 4, audit 5). -/
def danaDb : Storage := (postPeople acmeDb "lawyer-1" 0 danaBody true).state

/-- Org plus Class A only (class 2, audit 3): the base state for the
issuance-validation runs. -/
def orgClassDb : Storage :=
  (postShareClasses acmeDb "lawyer-1" 0 classABody true).state

/-- A self-referencing issuance request: `entityShareholderId` equals the
issuing org's own id (0), posted to the generic issuances endpoint. -/
def selfRefIssuanceRun : RouteResult ShareIssuance :=
  postIssuances orgClassDb "lawyer-1" 0
    { shareholderType := "entity", entityShareholderId := some 0,
      shareClassId := 2, quantity := 10, certNumber := "E-1",
      issueDate := 10 } true

/-- An issuance request violating shareholder exclusivity: type "person"
with BOTH `shareholderId` and `entityShareholderId` populated. -/
def bothIdsIssuanceRun : RouteResult ShareIssuance :=
  postIssuances orgClassDb "lawyer-1" 0
    { shareholderType := "person", shareholderId := some 77,
      entityShareholderId := some 88, shareClassId := 2, quantity := 5,
      certNumber := "X-1", issueDate := 11 } true

/-- An issuance request with a negative quantity. -/
def negativeQuantityRun : RouteResult ShareIssuance :=
  postIssuances orgClassDb "lawyer-1" 0
    { shareholderId := some 77, shareClassId := 2, quantity := -5,
      certNumber := "N-1", issueDate := 12 } true

/-- A second share class for org 0 with the same shortCode "A" as the one
already stored in `orgClassDb`. -/
def duplicateShortCodeRun : RouteResult ShareClass :=
  postShareClasses orgClassDb "lawyer-1" 0
    { name := "Class A Duplicate", shortCode := "A" } true

/-! ## Claim theorems -/

/-- Claim C1 (code bug): the transfer route performs no balance check.
Reached purely through the API, Pat holds 600 Class-A shares (1000 issued,
400 transferred out), yet `POST /api/orgs/0/transfers` accepts a further
700-share transfer from Pat with status 201, persists the row, and Pat's
net holdings (the spec's issuances − out + in formula) drop to −100: the
conservation invariant is violated and no `InsufficientSharesError` path
exists in the code. -/
theorem c1_transfer_exceeding_balance_persisted :
    netHoldings withTransfer 0 8 2 = 600 ∧
    overTransferRun.status = 201 ∧
    overTransferRun.state.shareTransfers.map
      (fun t => (t.fromPersonId, t.quantity)) =
      [(some 2, 700), (some 2, 400)] ∧
    netHoldings overTransferRun.state 0 8 2 = -100 ∧
    netHoldings overTransferRun.state 0 8 2 < 0 := by
  decide

/-- Claim C2 (code bug): on the happy path each of the five mutating calls
(create org, add person ×2, create share class, issue shares, transfer
shares) leaves exactly one audit row with matching orgId/action — but the
write and the log are NOT coupled: when the audit insert rejects during
`POST /api/orgs`, the route answers 500 while the already-inserted org row
stays persisted and no audit row exists, i.e. there is no rollback. -/
theorem c2_audit_log_not_atomic :
    withTransfer.auditLogs.map (fun l => (l.orgId, l.action)) =
      [(some 0, "TRANSFER_SHARES"), (some 0, "ISSUE_SHARES"),
       (some 0, "CREATE_SHARE_CLASS"), (some 0, "ADD_PERSON"),
       (some 0, "ADD_PERSON"), (some 0, "CREATE_ORG")] ∧
    (postOrgs emptyDb none acmeBody false).status = 500 ∧
    (postOrgs emptyDb none acmeBody false).state.orgs.map (fun o => o.name) =
      ["Acme Inc"] ∧
    (postOrgs emptyDb none acmeBody false).state.auditLogs = [] := by
  decide

/-- Claim C3 counterexample: the generic issuance endpoint
`POST /api/orgs/:orgId/issuances` performs no self-reference check: a
request with `entityShareholderId = 0` posted under org 0 succeeds with
201, a self-referencing issuance row is stored under org 0, and an
`ISSUE_SHARES` audit entry is written — refuting both the universal
rejection and the stored-data invariant `entityShareholderId != O`. -/
theorem c3_generic_issuance_accepts_self_reference :
    selfRefIssuanceRun.status = 201 ∧
    selfRefIssuanceRun.state.shareIssuances.map
      (fun i => (i.orgId, i.entityShareholderId)) = [(0, some 0)] ∧
    selfRefIssuanceRun.state.auditLogs.head?.map (fun l => l.action) =
      some "ISSUE_SHARES" := by
  decide

/-- Claim C3 as amended: only the corporate-shareholders endpoint rejects a
self-referencing request — with status 400, an unchanged datastore (no
issuance row, no audit entry) — while the generic issuances endpoint
persists whatever `entityShareholderId` it is given. -/
theorem c3_self_reference_check_only_on_corporate_route
    (s : Storage) (userId : String) (orgId : Nat) (b : CorpShareholderBody)
    (auditOk : Bool) (ib : IssuanceBody)
    (h : b.entityShareholderId = orgId) :
    postCorporateShareholders s userId orgId b auditOk =
      { status := 400, body := none, state := s } ∧
    (postIssuances s userId orgId ib true).status = 201 ∧
    (postIssuances s userId orgId ib true).state.shareIssuances.head?.map
      (fun i => i.entityShareholderId) = some ib.entityShareholderId := by
  refine ⟨?_, ?_, ?_⟩
  · simp [postCorporateShareholders, h]
  · simp [postIssuances, createShareIssuance, createAuditLog]
  · simp [postIssuances, createShareIssuance, createAuditLog]

/-- Witness for the amended C3 theorem at a concrete state and request. -/
theorem c3_self_reference_only_corporate_witness :
    postCorporateShareholders orgClassDb "lawyer-1" 0
      { entityShareholderId := 0, shareClassId := 2, quantity := 10,
        certNumber := "E-9", issueDate := 10 } true =
      { status := 400, body := none, state := orgClassDb } ∧
    (postIssuances orgClassDb "lawyer-1" 0
      { shareholderId := some 2, shareClassId := 2, quantity := 10,
        certNumber := "E-8", issueDate := 10 } true).status = 201 ∧
    (postIssuances orgClassDb "lawyer-1" 0
      { shareholderId := some 2, shareClassId := 2, quantity := 10,
        certNumber := "E-8", issueDate := 10 } true).state.shareIssuances.head?.map
      (fun i => i.entityShareholderId) =
      some ({ shareholderId := some 2, shareClassId := 2, quantity := 10,
              certNumber := "E-8", issueDate := 10 } : IssuanceBody).entityShareholderId :=
  c3_self_reference_check_only_on_corporate_route orgClassDb "lawyer-1" 0
    { entityShareholderId := 0, shareClassId := 2, quantity := 10,
      certNumber := "E-9", issueDate := 10 } true
    { shareholderId := some 2, shareClassId := 2, quantity := 10,
      certNumber := "E-8", issueDate := 10 } rfl

/-- Claim C4 (code bug): the cap-table page does not aggregate issuances
adjusted by transfers. After issuing 1000 Class-A shares to sole holder
Pat (the issuance row is stored with quantity 1000), the page's people
data carries `shareQuantity = none` (the key is absent from persisted role
rows), its `totalShares` is 0, and `formatPercentage` renders "0%" for Pat
— not the 100% of Class A the claim requires. -/
theorem c4_cap_table_ignores_issuances :
    soleHolderDb.shareIssuances.map
      (fun i => (i.shareholderId, i.shareClassId, i.quantity)) =
      [(some 2, 5, 1000)] ∧
    (clientPeople soleHolderDb 0).map
      (fun p => (p.person.id, p.roles.map fun r => (r.role, r.shareQuantity))) =
      [(2, [("Shareholder", none)])] ∧
    totalShares (shareholders (clientPeople soleHolderDb 0)) = 0 ∧
    formatPercentage (totalShares (shareholders (clientPeople soleHolderDb 0)))
      0 = "0%" := by
  decide

/-- Claim C5 counterexample: after adding Dana with roles Director and
Shareholder in one call, the people listing built on the inner join returns
Dana TWICE (one occurrence per role row), not exactly once. -/
theorem c5_person_listed_once_per_role :
    (getPeopleWithRoles danaDb 0).map (fun pw => pw.person.id) = [2, 2] ∧
    ((getPeopleWithRoles danaDb 0).filter fun pw => pw.person.id == 2).length
      ≠ 1 := by
  decide

/-- Claim C5 as amended: both Role Assignment rows exist, and the listing
returns the person once per role row (here twice), each occurrence
decorated with the array of exactly their 2 role rows scoped to org 0. -/
theorem c5_two_roles_duplicated_listing :
    (getPersonOrgRelations danaDb 0).map (fun r => (r.personId, r.role)) =
      [(2, "Shareholder"), (2, "Director")] ∧
    (getPeopleWithRoles danaDb 0).map
      (fun pw => (pw.person.firstName, pw.roles.map fun r => (r.orgId, r.role))) =
      [("Dana", [(0, "Shareholder"), (0, "Director")]),
       ("Dana", [(0, "Shareholder"), (0, "Director")])] := by
  decide

/-- Claim C7 counterexample: an issuance with `shareholderType = "person"`
and BOTH `shareholderId` and `entityShareholderId` populated is accepted
with 201 and persisted as-is — exclusivity is neither validated nor holds
for stored rows. -/
theorem c7_exclusivity_violation_persisted :
    bothIdsIssuanceRun.status = 201 ∧
    bothIdsIssuanceRun.state.shareIssuances.map
      (fun i => (i.shareholderType, i.shareholderId, i.entityShareholderId)) =
      [("person", some 77, some 88)] := by
  decide

/-- Claim C7 as amended: `issueShares` performs no shareholder-exclusivity
validation — for every state and request it answers 201 and prepends an
issuance row whose `shareholderType` / `shareholderId` /
`entityShareholderId` are exactly the request's, whatever combination that
is. -/
theorem c7_no_exclusivity_validation
    (s : Storage) (userId : String) (orgId : Nat) (b : IssuanceBody) :
    (postIssuances s userId orgId b true).status = 201 ∧
    (postIssuances s userId orgId b true).state.shareIssuances.head?.map
      (fun i => (i.shareholderType, i.shareholderId, i.entityShareholderId)) =
      some (b.shareholderType, b.shareholderId, b.entityShareholderId) ∧
    (postIssuances s userId orgId b true).state.shareIssuances.length =
      s.shareIssuances.length + 1 := by
  refine ⟨?_, ?_, ?_⟩ <;> simp [postIssuances, createShareIssuance, createAuditLog]

/-- Claim C8 counterexample: an issuance with quantity −5 is accepted with
201 and the row is persisted; there is no `ValidationError` on
non-positive quantities. -/
theorem c8_nonpositive_quantity_accepted :
    negativeQuantityRun.status = 201 ∧
    negativeQuantityRun.state.shareIssuances.map (fun i => i.quantity) =
      [-5] := by
  decide

/-- Claim C8 as amended: `issueShares` does not validate `quantity > 0` —
any request with `quantity ≤ 0` still answers 201 and persists the
issuance row carrying that quantity. -/
theorem c8_no_quantity_validation
    (s : Storage) (userId : String) (orgId : Nat) (b : IssuanceBody)
    (h : b.quantity ≤ 0) :
    (postIssuances s userId orgId b true).status = 201 ∧
    (postIssuances s userId orgId b true).state.shareIssuances.head?.map
      (fun i => i.quantity) = some b.quantity ∧
    (postIssuances s userId orgId b true).state.shareIssuances.length =
      s.shareIssuances.length + 1 := by
  refine ⟨?_, ?_, ?_⟩ <;> simp [postIssuances, createShareIssuance, createAuditLog]

/-- Witness for the amended C8 theorem: a zero-quantity issuance request
against the concrete org/class state. -/
theorem c8_no_quantity_validation_witness :
    (postIssuances orgClassDb "lawyer-1" 0
      { shareholderId := some 2, shareClassId := 2, quantity := 0,
        certNumber := "Z-1", issueDate := 12 } true).status = 201 ∧
    (postIssuances orgClassDb "lawyer-1" 0
      { shareholderId := some 2, shareClassId := 2, quantity := 0,
        certNumber := "Z-1", issueDate := 12 } true).state.shareIssuances.head?.map
      (fun i => i.quantity) =
      some ({ shareholderId := some 2, shareClassId := 2, quantity := 0,
              certNumber := "Z-1", issueDate := 12 } : IssuanceBody).quantity ∧
    (postIssuances orgClassDb "lawyer-1" 0
      { shareholderId := some 2, shareClassId := 2, quantity := 0,
        certNumber := "Z-1", issueDate := 12 } true).state.shareIssuances.length =
      orgClassDb.shareIssuances.length + 1 :=
  c8_no_quantity_validation orgClassDb "lawyer-1" 0
    { shareholderId := some 2, shareClassId := 2, quantity := 0,
      certNumber := "Z-1", issueDate := 12 } (by decide)

/-- Claim C9 counterexample: with class (org 0, shortCode "A") already
stored, creating another class with shortCode "A" in the same org succeeds
with 201 and both rows coexist — no `ConflictError`, no uniqueness check. -/
theorem c9_duplicate_short_code_accepted :
    duplicateShortCodeRun.status = 201 ∧
    duplicateShortCodeRun.state.shareClasses.map
      (fun c => (c.orgId, c.shortCode)) = [(0, "A"), (0, "A")] := by
  decide

/-- Claim C9 as amended: `createShareClass` performs no shortCode
uniqueness validation — even when the org already stores a class with the
requested shortCode, the call answers 201 and prepends the new row while
the old duplicate remains. -/
theorem c9_no_short_code_uniqueness_check
    (s : Storage) (userId : String) (orgId : Nat) (b : ShareClassBody)
    (c : ShareClass) (hc : c ∈ s.shareClasses) (hco : c.orgId = orgId)
    (hcs : c.shortCode = b.shortCode) :
    (postShareClasses s userId orgId b true).status = 201 ∧
    (postShareClasses s userId orgId b true).state.shareClasses.head?.map
      (fun x => (x.orgId, x.shortCode)) = some (orgId, b.shortCode) ∧
    (postShareClasses s userId orgId b true).state.shareClasses.length =
      s.shareClasses.length + 1 ∧
    c ∈ (postShareClasses s userId orgId b true).state.shareClasses := by
  refine ⟨?_, ?_, ?_, ?_⟩ <;>
    simp [postShareClasses, createShareClass, createAuditLog]
  exact Or.inr hc

/-- Claim C6: creating an org with an embedded registered-office address
and reading the referenced Address row back yields identical
line1/city/region/country/postal; a subsequent PUT with a new address
payload creates a second, distinct Address row, repoints the org's
foreign key to it, and leaves the previously stored Address row unchanged
(no code path mutates an address in place). -/
theorem c6_address_round_trip_immutable
    (s : Storage) (b : CreateOrgBody) (p1 p2 : InsertAddress)
    (u : UpdateOrgBody)
    (hb : b.registeredOffice = some p1) (hrec : b.recordsOffice = none)
    (h2 : p2.line1 ≠ "")
    (hu : u.registeredOffice = some p2) (hum : u.mailingAddress = none)
    (hua : u.authRepAddress = none) :
    ∃ (org : Org) (a1 : Address),
      (postOrgs s none b true).body = some org ∧
      org.registeredOfficeId = some a1.id ∧
      getAddressById (postOrgs s none b true).state a1.id = some a1 ∧
      (a1.line1, a1.city, a1.region, a1.country, a1.postal) =
        (p1.line1, p1.city, p1.region, p1.country, p1.postal) ∧
      ∃ (org2 : Org) (a2 : Address),
        (putOrg (postOrgs s none b true).state none org.id u true).body =
          some org2 ∧
        org2.registeredOfficeId = some a2.id ∧
        a2.id ≠ a1.id ∧
        getAddressById
          (putOrg (postOrgs s none b true).state none org.id u true).state
          a2.id = some a2 ∧
        (a2.line1, a2.city, a2.region, a2.country, a2.postal) =
          (p2.line1, p2.city, p2.region, p2.country, p2.postal) ∧
        getAddressById
          (putOrg (postOrgs s none b true).state none org.id u true).state
          a1.id = some a1 := by
  refine ⟨⟨s.nextId + 1, b.name, b.number, b.jurisdiction, b.formationAt,
      some s.nextId, none, none, b.authRepName, b.authRepCompany, none,
      b.authRepEmail, b.authRepPhone, "test-user-123", s.now, s.now⟩,
    ⟨s.nextId, p1.line1, p1.line2, p1.city, p1.region, p1.country, p1.postal⟩,
    ?_, rfl, ?_, rfl, ?_⟩
  · simp [postOrgs, hb, hrec, createAddress, createOrg, createAuditLog]
  · simp [postOrgs, hb, hrec, createAddress, createOrg, createAuditLog,
      getAddressById]
  · simp only [postOrgs, hb, hrec, createAddress, createOrg, createAuditLog,
      putOrg, hu, hum, hua, ne_eq, h2, not_false_eq_true, ite_true,
      updateOrg, applyOrgPatch, patchOpt, List.map_cons, beq_self_eq_true,
      if_true, List.find?_cons_of_pos]
    refine ⟨_, ⟨s.nextId + 1 + 1 + 1, p2.line1, p2.line2, p2.city, p2.region,
      p2.country, p2.postal⟩, rfl, rfl, ?_, ?_, rfl, ?_⟩
    · show s.nextId + 1 + 1 + 1 ≠ s.nextId
      omega
    · simp [getAddressById]
    · simp only [getAddressById]
      rw [List.find?_cons_of_neg]
      · exact List.find?_cons_of_pos _ (by simp)
      · simp only [beq_iff_eq]
        omega

/-- Witness for the C6 round-trip theorem at concrete payloads. -/
theorem c6_address_round_trip_witness :
    ∃ (org : Org) (a1 : Address),
      (postOrgs emptyDb none
        { name := "Acme Inc", jurisdiction := "DE",
          registeredOffice := some
            { line1 := "1 Main St", city := "Wilmington", region := "DE",
              country := "US", postal := "19801" } } true).body = some org ∧
      org.registeredOfficeId = some a1.id ∧
      getAddressById (postOrgs emptyDb none
        { name := "Acme Inc", jurisdiction := "DE",
          registeredOffice := some
            { line1 := "1 Main St", city := "Wilmington", region := "DE",
              country := "US", postal := "19801" } } true).state a1.id =
        some a1 ∧
      (a1.line1, a1.city, a1.region, a1.country, a1.postal) =
        ("1 Main St", "Wilmington", "DE", "US", "19801") ∧
      ∃ (org2 : Org) (a2 : Address),
        (putOrg (postOrgs emptyDb none
          { name := "Acme Inc", jurisdiction := "DE",
            registeredOffice := some
              { line1 := "1 Main St", city := "Wilmington", region := "DE",
                country := "US", postal := "19801" } } true).state none org.id
          { registeredOffice := some
              { line1 := "2 Oak Ave", city := "Dover", region := "DE",
                country := "US", postal := "19901" } } true).body =
          some org2 ∧
        org2.registeredOfficeId = some a2.id ∧
        a2.id ≠ a1.id ∧
        getAddressById
          (putOrg (postOrgs emptyDb none
            { name := "Acme Inc", jurisdiction := "DE",
              registeredOffice := some
                { line1 := "1 Main St", city := "Wilmington", region := "DE",
                  country := "US", postal := "19801" } } true).state none
            org.id
            { registeredOffice := some
                { line1 := "2 Oak Ave", city := "Dover", region := "DE",
                  country := "US", postal := "19901" } } true).state a2.id =
          some a2 ∧
        (a2.line1, a2.city, a2.region, a2.country, a2.postal) =
          ("2 Oak Ave", "Dover", "DE", "US", "19901") ∧
        getAddressById
          (putOrg (postOrgs emptyDb none
            { name := "Acme Inc", jurisdiction := "DE",
              registeredOffice := some
                { line1 := "1 Main St", city := "Wilmington", region := "DE",
                  country := "US", postal := "19801" } } true).state none
            org.id
            { registeredOffice := some
                { line1 := "2 Oak Ave", city := "Dover", region := "DE",
                  country := "US", postal := "19901" } } true).state a1.id =
          some a1 :=
  c6_address_round_trip_immutable emptyDb
    { name := "Acme Inc", jurisdiction := "DE",
      registeredOffice := some
        { line1 := "1 Main St", city := "Wilmington", region := "DE",
          country := "US", postal := "19801" } }
    { line1 := "1 Main St", city := "Wilmington", region := "DE",
      country := "US", postal := "19801" }
    { line1 := "2 Oak Ave", city := "Dover", region := "DE",
      country := "US", postal := "19901" }
    { registeredOffice := some
        { line1 := "2 Oak Ave", city := "Dover", region := "DE",
          country := "US", postal := "19901" } }
    rfl rfl (by decide) rfl rfl rfl

/-- The UPDATE_ORG audit entry, when `PUT /api/orgs/:id` writes one, is
attributed to the hardcoded `"test-user-123"`; otherwise the audit table
is untouched. -/
theorem putOrg_audit_actor (s : Storage) (u : Option String) (i : Nat)
    (b : UpdateOrgBody) :
    (putOrg s u i b true).state.auditLogs.map (fun l => (l.actorId, l.action)) =
      ("test-user-123", "UPDATE_ORG") ::
        s.auditLogs.map (fun l => (l.actorId, l.action)) ∨
    (putOrg s u i b true).state.auditLogs = s.auditLogs := by
  rcases hro : b.registeredOffice with _ | a1
  all_goals rcases hmo : b.mailingAddress with _ | a2
  all_goals rcases hao : b.authRepAddress with _ | a3
  all_goals simp only [putOrg, hro, hmo, hao, createAddress, createAuditLog,
    updateOrg]
  all_goals repeat' split
  all_goals first
    | (left; rfl)
    | (right; rfl)

/-- Claim C10: `POST /api/orgs` and `PUT /api/orgs/:id` ignore the request
identity entirely — two calls differing only in caller produce identical
outcomes; the created org's `createdById` and the CREATE_ORG / UPDATE_ORG
audit actor are the fixed string "test-user-123"; and the route table
registers both paths without the `isAuthenticated` middleware. -/
theorem c10_hardcoded_actor_identity
    (s : Storage) (u1 u2 : Option String) (b : CreateOrgBody)
    (ub : UpdateOrgBody) (i : Nat) (auditOk : Bool) :
    postOrgs s u1 b auditOk = postOrgs s u2 b auditOk ∧
    putOrg s u1 i ub auditOk = putOrg s u2 i ub auditOk ∧
    (postOrgs s u1 b true).body.map (fun o => o.createdById) =
      some "test-user-123" ∧
    (postOrgs s u1 b true).state.auditLogs.head?.map
      (fun l => (l.actorId, l.action)) = some ("test-user-123", "CREATE_ORG") ∧
    ((putOrg s u1 i ub true).state.auditLogs.map
        (fun l => (l.actorId, l.action)) =
      ("test-user-123", "UPDATE_ORG") ::
        s.auditLogs.map (fun l => (l.actorId, l.action)) ∨
      (putOrg s u1 i ub true).state.auditLogs = s.auditLogs) ∧
    routeUsesAuth "POST" "/api/orgs" = some false ∧
    routeUsesAuth "PUT" "/api/orgs/:id" = some false := by
  refine ⟨rfl, rfl, ?_, ?_, putOrg_audit_actor s u1 i ub, by decide, by decide⟩
  · cases hb : b.registeredOffice <;> cases hr : b.recordsOffice <;>
      simp [postOrgs, hb, hr, createAddress, createOrg, createAuditLog]
  · cases hb : b.registeredOffice <;> cases hr : b.recordsOffice <;>
      simp [postOrgs, hb, hr, createAddress, createOrg, createAuditLog]

/-- Witness for the amended C9 theorem: the duplicate-"A" request against
the concrete org/class state. -/
theorem c9_no_short_code_uniqueness_witness :
    (postShareClasses orgClassDb "lawyer-1" 0
      { name := "Class A Duplicate", shortCode := "A" } true).status = 201 ∧
    (postShareClasses orgClassDb "lawyer-1" 0
      { name := "Class A Duplicate", shortCode := "A" } true).state.shareClasses.head?.map
      (fun x => (x.orgId, x.shortCode)) =
      some (0, ({ name := "Class A Duplicate", shortCode := "A" } : ShareClassBody).shortCode) ∧
    (postShareClasses orgClassDb "lawyer-1" 0
      { name := "Class A Duplicate", shortCode := "A" } true).state.shareClasses.length =
      orgClassDb.shareClasses.length + 1 ∧
    (⟨2, 0, "Class A Common", "A", true, true, false, none⟩ : ShareClass) ∈
      (postShareClasses orgClassDb "lawyer-1" 0
        { name := "Class A Duplicate", shortCode := "A" } true).state.shareClasses :=
  c9_no_short_code_uniqueness_check orgClassDb "lawyer-1" 0
    { name := "Class A Duplicate", shortCode := "A" }
    ⟨2, 0, "Class A Common", "A", true, true, false, none⟩
    (by decide) (by decide) (by decide)

end LegalEase
